import Mathlib

/-!
Verification of the booking/payment core of the Diamond House cleaning-service
server (Express + Mongoose). JavaScript numbers are modelled as exact rationals
and machine timestamps as integers (milliseconds since the epoch). Mongo
collections are modelled as Lean lists in insertion order; findOne and
findOneAndUpdate act on the first matching element, and create appends.
External collaborators (the Razorpay gateway and the HMAC-SHA256 primitive)
are modelled as parameters.
-/

namespace DH

/-- Booking status enum from the Booking schema. The refunded constructor is
not in the schema enum, but the refund controller writes the string refunded
through findByIdAndUpdate, which does not run validators, so the value can
reach the store and the model must be able to represent it. -/
inductive BookingStatus
  | pending | confirmed | assigned | in_progress | completed | cancelled | refunded
deriving DecidableEq, Repr

/-- Payment status enum from the Payment schema. -/
inductive PaymentStatus
  | initiated | pending | success | failed | cancelled | refunded
deriving DecidableEq, Repr

/-- User role from the auth middleware. -/
inductive Role
  | customer | staff | admin
deriving DecidableEq, Repr

structure User where
  uid : Nat
  role : Role
deriving DecidableEq, Repr

/-- An add-on as sent in a booking request and as snapshot on a line item. -/
structure ReqAddOn where
  name : String
  price : ℚ
deriving DecidableEq, Repr

/-- One entry of req.body.services in createBooking. -/
structure ReqServiceItem where
  serviceId : Nat
  quantity : ℚ
  addOns : List ReqAddOn
deriving DecidableEq, Repr

/-- The part of a catalog Service document read by createBooking. -/
structure CatalogService where
  serviceName : String
  basePrice : ℚ
  isActive : Bool
deriving DecidableEq, Repr

/-- A validated line item pushed onto validatedServices. -/
structure LineItem where
  serviceId : Nat
  serviceName : String
  quantity : ℚ
  basePrice : ℚ
  addOns : List ReqAddOn
  subtotal : ℚ
deriving DecidableEq, Repr

/-- The booking pricing subdocument. -/
structure Pricing where
  subtotal : ℚ
  tax : ℚ
  discount : ℚ
  total : ℚ
deriving DecidableEq, Repr

/-- JavaScript Math.round: round half toward positive infinity. -/
def jsRound (q : ℚ) : ℤ := ⌊q + 1 / 2⌋

/-- The validation-and-pricing loop of createBooking: for each requested
service item, look the service up in the catalog, reject missing or inactive
services, snapshot prices, and accumulate the running subtotal and the list
of validated line items, exactly as the for loop in the controller. -/
def validateLoop (catalog : Nat → Option CatalogService) :
    List ReqServiceItem → ℚ → List LineItem → Option (List LineItem × ℚ)
  | [], subtotal, acc => some (acc, subtotal)
  | it :: rest, subtotal, acc =>
    match catalog it.serviceId with
    | none => none
    | some s =>
      if s.isActive = false then none
      else
        let basePrice := s.basePrice
        let addOnTotal := it.addOns.foldl (fun sum a => sum + a.price) 0
        let itemTotal := (basePrice + addOnTotal) * it.quantity
        validateLoop catalog rest (subtotal + itemTotal)
          (acc ++ [{ serviceId := it.serviceId, serviceName := s.serviceName,
                     quantity := it.quantity, basePrice := basePrice,
                     addOns := it.addOns, subtotal := itemTotal }])

/-- createBooking (pricing part): validate every service item, then compute
tax as Math.round(subtotal * 0.18 * 100) / 100 and total as subtotal + tax.
Returns none when some service is missing or inactive (HTTP 400). -/
def createBooking (catalog : Nat → Option CatalogService)
    (services : List ReqServiceItem) : Option (List LineItem × Pricing) :=
  match validateLoop catalog services 0 [] with
  | none => none
  | some (items, subtotal) =>
    let tax : ℚ := (jsRound (subtotal * (18 / 100) * 100) : ℚ) / 100
    let total := subtotal + tax
    some (items, { subtotal := subtotal, tax := tax, discount := 0, total := total })

/-- Whether a requested service item refers to an existing active service. -/
def validItem (catalog : Nat → Option CatalogService) (it : ReqServiceItem) : Bool :=
  match catalog it.serviceId with
  | none => false
  | some s => s.isActive

/-- The per-item total stated by the spec:
(basePrice + sum of add-on prices) * quantity, with prices from the catalog. -/
def specItemTotal (catalog : Nat → Option CatalogService) (it : ReqServiceItem) : ℚ :=
  match catalog it.serviceId with
  | none => 0
  | some s => (s.basePrice + (it.addOns.map ReqAddOn.price).sum) * it.quantity

/-- The booking.payment subdocument written by verifyPayment. -/
structure PayRef where
  paymentId : Nat
  paymentStatus : String
  paymentMethod : String
deriving DecidableEq, Repr

/-- The booking.cancellation subdocument. -/
structure Cancellation where
  isCancelled : Bool
  cancelledBy : Option Nat
  cancelledAt : ℤ
  cancellationReason : String
  refundAmount : Option ℚ
deriving DecidableEq, Repr

/-- The part of a Booking document used by the claims. scheduledDate is a
timestamp in milliseconds. -/
structure Booking where
  bid : Nat
  bookingNumber : String
  customerId : Nat
  status : BookingStatus
  scheduledDate : ℤ
  payment : Option PayRef
  cancellation : Option Cancellation
deriving DecidableEq, Repr

/-- The payment.refund subdocument. -/
structure RefundInfo where
  isRefunded : Bool
  refundAmount : Option ℚ
  refundTransactionId : Option String
  refundedAt : Option ℤ
  refundReason : Option String
  processedBy : Option Nat
deriving DecidableEq, Repr

/-- Default refund subdocument of a fresh Payment. -/
def RefundInfo.init : RefundInfo :=
  { isRefunded := false, refundAmount := none, refundTransactionId := none,
    refundedAt := none, refundReason := none, processedBy := none }

/-- The paymentDetails subdocument written by verifyPayment. -/
structure PaymentDetails where
  razorpayOrderId : String
  razorpayPaymentId : String
  razorpaySignature : String
deriving DecidableEq, Repr

/-- The part of a Payment document used by the claims. -/
structure Payment where
  pid : Nat
  transactionId : String
  bookingId : Nat
  customerId : Nat
  amount : ℚ
  status : PaymentStatus
  gatewayOrderId : String
  gatewayTransactionId : String
  paymentDetails : Option PaymentDetails
  refund : RefundInfo
deriving DecidableEq, Repr

/-- The shared persistent store: the payments and bookings collections, each
in insertion order. -/
structure St where
  payments : List Payment
  bookings : List Booking
deriving DecidableEq, Repr

/-- An HTTP response, reduced to its status code and message. -/
structure HttpRes where
  status : Nat
  message : String
deriving DecidableEq, Repr

/-- Outbound calls made to the Razorpay gateway during an operation. -/
inductive GatewayCall
  | createOrder (amountPaise : ℚ)
  | refund (gatewayTransactionId : String) (amountPaise : ℚ)
deriving DecidableEq, Repr

/-- Result of a state-mutating controller: HTTP response, new store state,
and the list of gateway calls issued. -/
structure Out where
  res : HttpRes
  st : St
  gw : List GatewayCall
deriving DecidableEq, Repr

/-- Mongo findOneAndUpdate and findByIdAndUpdate on a list: apply f to the
first element satisfying p, leave the rest unchanged; no-op when no element
matches. -/
def updateFirst (p : α → Bool) (f : α → α) : List α → List α
  | [] => []
  | x :: xs => if p x then f x :: xs else x :: updateFirst p f xs

/-- Booking instance method canCancel: strictly more than 2 hours before the
scheduled time and status pending or confirmed. -/
def canCancel (now : ℤ) (b : Booking) : Bool :=
  let twoHoursBefore := b.scheduledDate - 2 * 60 * 60 * 1000
  decide (now < twoHoursBefore) &&
    decide (b.status ∈ [BookingStatus.pending, BookingStatus.confirmed])

/-- cancelBooking controller (DELETE /bookings/:id): find the booking, check
ownership for customers, check canCancel, then set status cancelled and the
cancellation subdocument. -/
def cancelBooking (user : User) (bookingId : Nat) (reason : String)
    (now : ℤ) (st : St) : HttpRes × St :=
  match st.bookings.find? (fun b => b.bid == bookingId) with
  | none => ({ status := 404, message := "Booking not found" }, st)
  | some booking =>
    if user.role = Role.customer ∧ booking.customerId ≠ user.uid then
      ({ status := 403, message := "Not authorized to cancel this booking" }, st)
    else if canCancel now booking = false then
      ({ status := 400, message := "Booking cannot be cancelled at this time" }, st)
    else
      let bookings := updateFirst (fun b => b.bid == bookingId)
        (fun b => { b with
          status := BookingStatus.cancelled,
          cancellation := some
            { isCancelled := true, cancelledBy := some user.uid,
              cancelledAt := now, cancellationReason := reason,
              refundAmount := none } }) st.bookings
      ({ status := 200, message := "Booking cancelled successfully" },
       { st with bookings := bookings })

/-- The tail of createOrder after the guards pass: open a gateway order for
amount * 100 paise and append a Payment in status initiated. -/
def createOrderProceed (user : User) (bookingId : Nat) (amount : ℚ)
    (orderId : String) (newPid : Nat) (st : St) : Out :=
  let payment : Payment :=
    { pid := newPid, transactionId := orderId, bookingId := bookingId,
      customerId := user.uid, amount := amount, status := PaymentStatus.initiated,
      gatewayOrderId := orderId, gatewayTransactionId := "",
      paymentDetails := none, refund := RefundInfo.init }
  { res := { status := 200, message := "Payment order created successfully" },
    st := { st with payments := st.payments ++ [payment] },
    gw := [GatewayCall.createOrder (amount * 100)] }

/-- createOrder controller (POST /payments/create-order). orderId is the id
assigned by the gateway and newPid the id Mongo assigns to the new Payment
document. The existing-payment guard is findOne on bookingId alone: it
inspects only the first Payment record of the booking. -/
def createOrder (user : User) (bookingId : Nat) (amount : ℚ)
    (orderId : String) (newPid : Nat) (st : St) : Out :=
  match st.bookings.find? (fun b => b.bid == bookingId) with
  | none => { res := { status := 404, message := "Booking not found" }, st := st, gw := [] }
  | some booking =>
    if booking.customerId ≠ user.uid then
      { res := { status := 403, message := "Not authorized to pay for this booking" },
        st := st, gw := [] }
    else if booking.status ≠ BookingStatus.confirmed then
      { res := { status := 400, message := "Booking must be confirmed before payment" },
        st := st, gw := [] }
    else
      match st.payments.find? (fun p => p.bookingId == bookingId) with
      | some existingPayment =>
        if existingPayment.status = PaymentStatus.success then
          { res := { status := 400, message := "Payment already completed for this booking" },
            st := st, gw := [] }
        else createOrderProceed user bookingId amount orderId newPid st
      | none => createOrderProceed user bookingId amount orderId newPid st

/-- The body of POST /payments/verify. -/
structure VerifyReq where
  razorpay_order_id : String
  razorpay_payment_id : String
  razorpay_signature : String
  bookingId : Nat
deriving DecidableEq, Repr

/-- The findOneAndUpdate document update applied to the Payment by
verifyPayment on a signature match. -/
def verifySuccessUpdate (req : VerifyReq) (p : Payment) : Payment :=
  { p with
    gatewayTransactionId := req.razorpay_payment_id,
    status := PaymentStatus.success,
    paymentDetails := some
      { razorpayOrderId := req.razorpay_order_id,
        razorpayPaymentId := req.razorpay_payment_id,
        razorpaySignature := req.razorpay_signature } }

/-- The findByIdAndUpdate document update applied to the Booking by
verifyPayment on a signature match; payId is the id of the matched Payment. -/
def assignBookingUpdate (payId : Nat) (b : Booking) : Booking :=
  { b with
    status := BookingStatus.assigned,
    payment := some { paymentId := payId, paymentStatus := "completed",
                      paymentMethod := "razorpay" } }

/-- verifyPayment controller: recompute the HMAC-SHA256 signature over
orderId|paymentId with the gateway key secret; on mismatch answer 400 with
no state change; on match mark the Payment found by transactionId success
and mark the booking named by the request body assigned with its payment
reference set. hmac abstracts the HMAC-SHA256 primitive. -/
def verifyPayment (hmac : String → String → String) (keySecret : String)
    (req : VerifyReq) (st : St) : HttpRes × St :=
  let sign := req.razorpay_order_id ++ "|" ++ req.razorpay_payment_id
  let expectedSign := hmac keySecret sign
  if req.razorpay_signature ≠ expectedSign then
    ({ status := 400, message := "Payment verification failed" }, st)
  else
    match st.payments.find? (fun p => p.transactionId == req.razorpay_order_id) with
    | none => ({ status := 404, message := "Payment record not found" }, st)
    | some payment =>
      let payments := updateFirst (fun p => p.transactionId == req.razorpay_order_id)
        (verifySuccessUpdate req) st.payments
      let bookings := updateFirst (fun b => b.bid == req.bookingId)
        (assignBookingUpdate payment.pid) st.bookings
      ({ status := 200, message := "Payment verified successfully" },
       { payments := payments, bookings := bookings })

/-- getPayment controller (GET /payments/:id): only customers are restricted
to their own payments; staff and admin pass the permission check. -/
def getPayment (user : User) (paymentId : Nat) (st : St) :
    HttpRes × Option Payment :=
  match st.payments.find? (fun p => p.pid == paymentId) with
  | none => ({ status := 404, message := "Payment not found" }, none)
  | some payment =>
    if user.role = Role.customer ∧ payment.customerId ≠ user.uid then
      ({ status := 403, message := "Not authorized to view this payment" }, none)
    else
      ({ status := 200, message := "Payment details retrieved successfully" }, some payment)

/-- getBookingPayments controller (GET /payments/booking/:bookingId): returns
every payment of the booking sorted newest first (stored order reversed).
The route only requires an authenticated user; the handler performs no
ownership or role check at all. -/
def getBookingPayments (_user : User) (bookingId : Nat) (st : St) :
    HttpRes × List Payment :=
  ({ status := 200, message := "Booking payments retrieved successfully" },
   (st.payments.filter (fun p => p.bookingId == bookingId)).reverse)

/-- processRefund controller (POST /payments/:id/refund, admin route): finds
the payment, requires status success, then issues the gateway refund and sets
the refund subdocument, payment status refunded, and the booking status
refunded with a cancellation record. There is no check that amount is at
most payment.amount. -/
def processRefund (paymentId : Nat) (amount : ℚ) (reason : String)
    (refundId : String) (now : ℤ) (st : St) : Out :=
  match st.payments.find? (fun p => p.pid == paymentId) with
  | none => { res := { status := 404, message := "Payment not found" }, st := st, gw := [] }
  | some payment =>
    if payment.status ≠ PaymentStatus.success then
      { res := { status := 400, message := "Only successful payments can be refunded" },
        st := st, gw := [] }
    else
      let payments := updateFirst (fun p => p.pid == paymentId)
        (fun p => { p with
          refund :=
            { isRefunded := true, refundAmount := some amount,
              refundTransactionId := some refundId, refundedAt := some now,
              refundReason := some reason, processedBy := none },
          status := PaymentStatus.refunded }) st.payments
      let bookings := updateFirst (fun b => b.bid == payment.bookingId)
        (fun b => { b with
          status := BookingStatus.refunded,
          cancellation := some
            { isCancelled := true, cancelledBy := none, cancelledAt := now,
              cancellationReason := "", refundAmount := some amount } }) st.bookings
      { res := { status := 200, message := "Refund processed successfully" },
        st := { payments := payments, bookings := bookings },
        gw := [GatewayCall.refund payment.gatewayTransactionId (amount * 100)] }

/-- Payment instance method canRefund from the Payment schema. -/
def Payment.canRefund (p : Payment) : Bool :=
  decide (p.status ∈ [PaymentStatus.success]) &&
    !decide (p.status ∈ [PaymentStatus.refunded, PaymentStatus.failed,
                         PaymentStatus.cancelled]) &&
    !p.refund.isRefunded

/-- Payment instance method processRefund from the Payment schema: throws
unless the payment can be refunded and refundAmount is at most the payment
amount; on success sets the refund subdocument and, for a full refund, the
status refunded. Throwing is modelled as Except.error with the message. -/
def Payment.processRefundMethod (p : Payment) (refundAmount : ℚ)
    (reason : String) (processedBy : Nat) (now : ℤ) : Except String Payment :=
  if p.canRefund = false then
    Except.error "Payment cannot be refunded"
  else if refundAmount > p.amount then
    Except.error "Refund amount cannot exceed payment amount"
  else
    let p1 := { p with refund :=
      { isRefunded := true, refundAmount := some refundAmount,
        refundTransactionId := none, refundedAt := some now,
        refundReason := some reason, processedBy := some processedBy } }
    Except.ok (if refundAmount ≥ p.amount
               then { p1 with status := PaymentStatus.refunded } else p1)

/-- A Razorpay webhook request body, with the raw serialized body the
signature is computed over and the payload fields the handler reads. -/
structure WebhookEvent where
  event : String
  raw : String
  paymentOrderId : String
  paymentEntityId : String
  refundPaymentId : String
  refundAmountPaise : ℚ
  refundId : String
deriving DecidableEq, Repr

/-- The update applied by the payment.captured webhook branch. -/
def capturedUpdate (e : WebhookEvent) (p : Payment) : Payment :=
  { p with status := PaymentStatus.success, gatewayTransactionId := e.paymentEntityId }

/-- The update applied by the payment.failed webhook branch. -/
def failedUpdate (p : Payment) : Payment :=
  { p with status := PaymentStatus.failed }

/-- The update applied by the refund.processed webhook branch. -/
def refundProcessedUpdate (e : WebhookEvent) (now : ℤ) (p : Payment) : Payment :=
  { p with refund := { p.refund with
      isRefunded := true,
      refundAmount := some (e.refundAmountPaise / 100),
      refundTransactionId := some e.refundId,
      refundedAt := some now } }

/-- handleRazorpayWebhook controller: verify the HMAC-SHA256 signature of the
raw body against the webhook secret (400 and no state change on mismatch),
then dispatch on the event name. payment.captured and payment.failed update
the Payment found by transactionId = order id; refund.processed updates the
Payment found by gatewayTransactionId = refunded payment id. Unknown events
fall through with 200. -/
def handleRazorpayWebhook (hmac : String → String → String)
    (webhookSecret : String) (signatureHeader : String)
    (e : WebhookEvent) (now : ℤ) (st : St) : HttpRes × St :=
  let expectedSignature := hmac webhookSecret e.raw
  if signatureHeader ≠ expectedSignature then
    ({ status := 400, message := "Invalid signature" }, st)
  else if e.event = "payment.captured" then
    let payments := updateFirst (fun p => p.transactionId == e.paymentOrderId)
      (capturedUpdate e) st.payments
    ({ status := 200, message := "OK" }, { st with payments := payments })
  else if e.event = "payment.failed" then
    let payments := updateFirst (fun p => p.transactionId == e.paymentOrderId)
      failedUpdate st.payments
    ({ status := 200, message := "OK" }, { st with payments := payments })
  else if e.event = "refund.processed" then
    let payments := updateFirst (fun p => p.gatewayTransactionId == e.refundPaymentId)
      (refundProcessedUpdate e now) st.payments
    ({ status := 200, message := "OK" }, { st with payments := payments })
  else
    ({ status := 200, message := "OK" }, st)

/-- JavaScript String.prototype.padStart(4, "0"): left-pad with zeros up to
length 4, unchanged when already at least 4 characters long. -/
def padStart4 (s : String) : String :=
  if s.length < 4 then String.mk (List.replicate (4 - s.length) '0') ++ s else s

/-- The booking number generated by the pre-save hook of the Booking schema
when count bookings already exist for the current day:
DC + date (YYYYMMDD) + (count + 1) zero-padded to 4 digits. -/
def genNumber (dateStr : String) (count : Nat) : String :=
  "DC" ++ dateStr ++ padStart4 (Nat.repr (count + 1))

/-- Serialized same-day creation: each booking creation counts the bookings
already stored for the day and appends one carrying the generated number.
This is the pre-save hook executed atomically, n times in sequence. -/
def seqCreate (dateStr : String) : Nat → List String
  | 0 => []
  | n + 1 =>
    let store := seqCreate dateStr n
    store ++ [genNumber dateStr store.length]

/-- The in-flight state of one booking-creation request: the same-day count
it has read, if any, and the booking number it ended up committing. -/
structure CreateOp where
  readCount : Option Nat
  result : Option String
deriving DecidableEq, Repr

/-- Two concurrent same-day booking creations over the shared store (the list
of booking numbers already committed for the day). -/
structure CSys where
  store : List String
  op1 : CreateOp
  op2 : CreateOp
deriving DecidableEq, Repr

/-- Atomic steps of the two requests. The pre-save hook is not atomic: it
first reads the same-day countDocuments, then inserts the booking, so each
request contributes one read step and one write step. -/
inductive CStep
  | read1 | write1 | read2 | write2
deriving DecidableEq, Repr

/-- Execute one step: a read snapshots the current same-day count into the
request; a write commits a booking numbered from the snapshot count. -/
def cstep (dateStr : String) (s : CSys) : CStep → CSys
  | CStep.read1 => { s with op1 := { s.op1 with readCount := some s.store.length } }
  | CStep.read2 => { s with op2 := { s.op2 with readCount := some s.store.length } }
  | CStep.write1 =>
    match s.op1.readCount with
    | none => s
    | some c =>
      { s with store := s.store ++ [genNumber dateStr c],
               op1 := { s.op1 with result := some (genNumber dateStr c) } }
  | CStep.write2 =>
    match s.op2.readCount with
    | none => s
    | some c =>
      { s with store := s.store ++ [genNumber dateStr c],
               op2 := { s.op2 with result := some (genNumber dateStr c) } }

/-- Run a schedule of interleaved steps. -/
def crun (dateStr : String) (s : CSys) (steps : List CStep) : CSys :=
  steps.foldl (cstep dateStr) s

/-- Initial state: an empty same-day store, neither request started. -/
def cinit : CSys :=
  { store := [], op1 := { readCount := none, result := none },
    op2 := { readCount := none, result := none } }

/-- Decimal digit list of a natural number, most significant first; the pure
recursion computed by Nat.toDigitsCore. -/
def digs (n : Nat) : List Char :=
  if h : n < 10 then [Nat.digitChar n]
  else
    have : n / 10 < n := Nat.div_lt_self (by omega) (by omega)
    digs (n / 10) ++ [Nat.digitChar (n % 10)]

/-- Numeric value of a decimal digit character. -/
def charVal (c : Char) : Nat := c.toNat - 48

/-- Left fold reading a decimal digit string back into a number. -/
def valAux (a : Nat) (l : List Char) : Nat :=
  l.foldl (fun a c => 10 * a + charVal c) a

/-- The line item the createBooking loop stores for a valid service item,
with its subtotal written as the spec formula. -/
def snapLine (catalog : Nat → Option CatalogService) (it : ReqServiceItem) : LineItem :=
  match catalog it.serviceId with
  | none =>
    { serviceId := it.serviceId, serviceName := "", quantity := it.quantity,
      basePrice := 0, addOns := it.addOns, subtotal := 0 }
  | some s =>
    { serviceId := it.serviceId, serviceName := s.serviceName, quantity := it.quantity,
      basePrice := s.basePrice, addOns := it.addOns,
      subtotal := (s.basePrice + (it.addOns.map ReqAddOn.price).sum) * it.quantity }

/-! Concrete fixtures used by the witnesses and counterexamples below. -/

/-- A catalog with one active service priced 1000. -/
def C1catalog : Nat → Option CatalogService := fun i =>
  if i = 1 then some { serviceName := "Deep Clean", basePrice := 1000, isActive := true }
  else none

/-- A single-service request: quantity 1, no add-ons. -/
def C1services : List ReqServiceItem := [{ serviceId := 1, quantity := 1, addOns := [] }]

/-- A payment document with the given id, transaction id, booking, customer,
amount and status, other fields fresh. -/
def payFix (pid : Nat) (tx : String) (bk cust : Nat) (amt : ℚ)
    (stt : PaymentStatus) : Payment :=
  { pid := pid, transactionId := tx, bookingId := bk, customerId := cust,
    amount := amt, status := stt, gatewayOrderId := tx,
    gatewayTransactionId := "gt" ++ tx, paymentDetails := none,
    refund := RefundInfo.init }

/-- A booking document with the given id, customer, status and schedule. -/
def bookFix (bid cust : Nat) (stt : BookingStatus) (sched : ℤ) : Booking :=
  { bid := bid, bookingNumber := "DC202601010001", customerId := cust,
    status := stt, scheduledDate := sched, payment := none, cancellation := none }

def C2req : VerifyReq :=
  { razorpay_order_id := "o1", razorpay_payment_id := "p1",
    razorpay_signature := "ko1|p1", bookingId := 1 }

def C2st : St :=
  { payments := [payFix 1 "o1" 1 5 100 PaymentStatus.initiated],
    bookings := [bookFix 1 5 BookingStatus.confirmed 0] }

/-- Store with two payments for booking 1: the first failed, the second a
success; booking 1 confirmed and owned by customer 7. -/
def C3st : St :=
  { payments := [payFix 1 "o1" 1 7 100 PaymentStatus.failed,
                 payFix 2 "o2" 1 7 100 PaymentStatus.success],
    bookings := [bookFix 1 7 BookingStatus.confirmed 0] }

/-- Store whose first (and only) payment for booking 1 is a success. -/
def C3stB : St :=
  { payments := [payFix 1 "o1" 1 7 100 PaymentStatus.success],
    bookings := [bookFix 1 7 BookingStatus.confirmed 0] }

def C4pay : Payment :=
  { payFix 1 "o1" 1 7 100 PaymentStatus.success with gatewayTransactionId := "gto1" }

def C4st : St := { payments := [C4pay], bookings := [bookFix 1 7 BookingStatus.assigned 0] }

def C5event : WebhookEvent :=
  { event := "payment.failed", raw := "body5", paymentOrderId := "o1",
    paymentEntityId := "rp1", refundPaymentId := "", refundAmountPaise := 0,
    refundId := "" }

def C5st : St :=
  { payments := [payFix 1 "o1" 1 7 100 PaymentStatus.success], bookings := [] }

def C6event : WebhookEvent :=
  { event := "payment.captured", raw := "body6", paymentOrderId := "o1",
    paymentEntityId := "rp6", refundPaymentId := "", refundAmountPaise := 0,
    refundId := "" }

def C6st : St :=
  { payments := [payFix 1 "o1" 1 7 100 PaymentStatus.initiated], bookings := [] }

def C7book : Booking := bookFix 1 5 BookingStatus.pending 7200000

def C7st : St := { payments := [], bookings := [C7book] }

/-- A successful payment of customer 2 on booking 9. -/
def C8pay : Payment := payFix 1 "o9" 9 2 100 PaymentStatus.success

def C8st : St := { payments := [C8pay], bookings := [] }

/-- A payment whose own bookingId is 1, while the verification request below
names booking 2, owned by a different customer. -/
def C10pay : Payment := payFix 1 "o1" 1 5 100 PaymentStatus.initiated

def C10st : St :=
  { payments := [C10pay],
    bookings := [bookFix 1 5 BookingStatus.confirmed 0,
                 bookFix 2 99 BookingStatus.pending 0] }

def C10req : VerifyReq :=
  { razorpay_order_id := "o1", razorpay_payment_id := "p1",
    razorpay_signature := "ko1|p1", bookingId := 2 }

/-! Helper lemmas about the list-level model of findOneAndUpdate. -/

/-- Finding after a first-match update with a predicate the update preserves
returns the updated image of what finding returned before. -/
theorem find?_updateFirst {α : Type} (p : α → Bool) (f : α → α)
    (hf : ∀ x, p (f x) = p x) :
    ∀ l : List α, (updateFirst p f l).find? p = (l.find? p).map f := by
  intro l
  induction l with
  | nil => rfl
  | cons x xs ih =>
    by_cases hx : p x = true
    · simp [updateFirst, hx, List.find?_cons, hf x]
    · have hx2 : p x = false := by simpa using hx
      simp [updateFirst, hx2, List.find?_cons, ih]

/-- A first-match update with an idempotent, predicate-preserving update
function is itself idempotent. -/
theorem updateFirst_idem {α : Type} (p : α → Bool) (f : α → α)
    (hf : ∀ x, p (f x) = p x) (hff : ∀ x, f (f x) = f x) :
    ∀ l : List α, updateFirst p f (updateFirst p f l) = updateFirst p f l := by
  intro l
  induction l with
  | nil => rfl
  | cons x xs ih =>
    by_cases hx : p x = true
    · simp [updateFirst, hx, hf x, hff x]
    · have hx2 : p x = false := by simpa using hx
      simp [updateFirst, hx2, ih]

/-- The add-on price fold of the createBooking loop is the sum of the
mapped prices. -/
theorem foldl_add_price (l : List ReqAddOn) :
    ∀ s : ℚ, l.foldl (fun acc a => acc + a.price) s = s + (l.map ReqAddOn.price).sum := by
  induction l with
  | nil => intro s; simp
  | cons a t ih => intro s; simp [ih, add_assoc]

/-- C7. canCancel is true exactly when the current time is strictly before
scheduledDate minus 2 hours (7200000 ms) and the status is pending or
confirmed; at the exact 2-hour boundary it is false; and whenever canCancel
is false the cancel controller leaves the store unchanged and does not
answer 200. -/
theorem C7_canCancel_window (user : User) (bookingId : Nat) (reason : String)
    (now : ℤ) (b : Booking) (st : St) :
    (canCancel now b = true ↔
      (now < b.scheduledDate - 7200000 ∧
        (b.status = BookingStatus.pending ∨ b.status = BookingStatus.confirmed))) ∧
    canCancel (b.scheduledDate - 7200000) b = false ∧
    (st.bookings.find? (fun x => x.bid == bookingId) = some b →
      canCancel now b = false →
      (cancelBooking user bookingId reason now st).2 = st ∧
      (cancelBooking user bookingId reason now st).1.status ≠ 200) := by
  refine ⟨?_, ?_, ?_⟩
  · simp [canCancel]
  · have h : ¬(b.scheduledDate - 7200000 < b.scheduledDate - 2 * 60 * 60 * 1000) := by
      omega
    simp [canCancel, h]
  · intro hfind hcc
    by_cases hperm : user.role = Role.customer ∧ b.customerId ≠ user.uid
    · simp [cancelBooking, hfind, hperm]
    · simp [cancelBooking, hfind, hperm, hcc]

/-- Witness for C7 at the exact boundary: the booking is scheduled at
t = 7200000 ms and the owner cancels at t = 0, exactly 2 hours before; the
guard is false and the cancel request is refused with no state change. -/
theorem C7_witness :
    canCancel 0 C7book = false ∧
    (cancelBooking ⟨5, Role.customer⟩ 1 "late" 0 C7st).2 = C7st ∧
    (cancelBooking ⟨5, Role.customer⟩ 1 "late" 0 C7st).1.status ≠ 200 := by
  have hcc : canCancel 0 C7book = false := by decide
  have h := (C7_canCancel_window ⟨5, Role.customer⟩ 1 "late" 0 C7book C7st).2.2
    (by decide) hcc
  exact ⟨hcc, h.1, h.2⟩

/-- C2. verifyPayment recomputes the HMAC over orderId|paymentId: on a
signature mismatch it answers 400 and the store is returned untouched; on a
match, when a Payment with the order id as transaction id exists, it answers
200, that Payment becomes success carrying the gateway payment id, and the
booking named by the request gains status assigned and a payment reference. -/
theorem C2_verifyPayment_signature (hmac : String → String → String)
    (keySecret : String) (req : VerifyReq) (st : St) :
    (req.razorpay_signature ≠
        hmac keySecret (req.razorpay_order_id ++ "|" ++ req.razorpay_payment_id) →
      verifyPayment hmac keySecret req st =
        ({ status := 400, message := "Payment verification failed" }, st)) ∧
    (req.razorpay_signature =
        hmac keySecret (req.razorpay_order_id ++ "|" ++ req.razorpay_payment_id) →
      ∀ pay, st.payments.find? (fun p => p.transactionId == req.razorpay_order_id) = some pay →
        (verifyPayment hmac keySecret req st).1.status = 200 ∧
        (verifyPayment hmac keySecret req st).2.payments.find?
            (fun p => p.transactionId == req.razorpay_order_id) =
          some (verifySuccessUpdate req pay) ∧
        (verifyPayment hmac keySecret req st).2.bookings.find?
            (fun b => b.bid == req.bookingId) =
          (st.bookings.find? (fun b => b.bid == req.bookingId)).map
            (assignBookingUpdate pay.pid)) := by
  constructor
  · intro h
    simp [verifyPayment, h]
  · intro h pay hfind
    refine ⟨?_, ?_, ?_⟩
    · simp [verifyPayment, h, hfind]
    · simp only [verifyPayment, h, ne_eq, not_true_eq_false, if_false, hfind]
      rw [find?_updateFirst (fun p => p.transactionId == req.razorpay_order_id)
          (verifySuccessUpdate req) (fun x => rfl), hfind]
      rfl
    · simp only [verifyPayment, h, ne_eq, not_true_eq_false, if_false, hfind]
      rw [find?_updateFirst (fun b => b.bid == req.bookingId)
          (assignBookingUpdate pay.pid) (fun x => rfl)]

/-- Witness for C2 on the match branch: a concrete HMAC model, a matching
signature, one initiated payment and one confirmed booking. -/
theorem C2_witness :
    (verifyPayment (fun s m => s ++ m) "k" C2req C2st).1.status = 200 ∧
    (verifyPayment (fun s m => s ++ m) "k" C2req C2st).2.payments.find?
        (fun p => p.transactionId == C2req.razorpay_order_id) =
      some (verifySuccessUpdate C2req (payFix 1 "o1" 1 5 100 PaymentStatus.initiated)) ∧
    (verifyPayment (fun s m => s ++ m) "k" C2req C2st).2.bookings.find?
        (fun b => b.bid == C2req.bookingId) =
      some (assignBookingUpdate 1 (bookFix 1 5 BookingStatus.confirmed 0)) := by
  have h := (C2_verifyPayment_signature (fun s m => s ++ m) "k" C2req C2st).2
    (by decide) (payFix 1 "o1" 1 5 100 PaymentStatus.initiated) (by decide)
  exact ⟨h.1, h.2.1, h.2.2⟩

/-- C10. On a matching signature with a Payment found by the order id,
verifyPayment marks assigned exactly the booking named by the caller-supplied
bookingId field: nothing in the hypotheses relates req.bookingId to the
matched Payment or to any requesting user, so the equation holds for every
bookingId value, including one different from the Payment bookingId or owned
by another customer. -/
theorem C10_verifyPayment_uses_supplied_bookingId
    (hmac : String → String → String) (keySecret : String)
    (req : VerifyReq) (st : St) (pay : Payment)
    (hsig : req.razorpay_signature =
      hmac keySecret (req.razorpay_order_id ++ "|" ++ req.razorpay_payment_id))
    (hfind : st.payments.find? (fun p => p.transactionId == req.razorpay_order_id) = some pay) :
    (verifyPayment hmac keySecret req st).1.status = 200 ∧
    (verifyPayment hmac keySecret req st).2.bookings =
      updateFirst (fun b => b.bid == req.bookingId) (assignBookingUpdate pay.pid)
        st.bookings := by
  constructor
  · simp [verifyPayment, hsig, hfind]
  · simp only [verifyPayment, hsig, ne_eq, not_true_eq_false, if_false, hfind]

/-- Witness for C10: the matched payment belongs to booking 1 of customer 5,
but the request names booking 2 of customer 99, and booking 2 is the one
that becomes assigned. -/
theorem C10_witness :
    C10pay.bookingId ≠ C10req.bookingId ∧
    (verifyPayment (fun s m => s ++ m) "k" C10req C10st).2.bookings =
      updateFirst (fun b => b.bid == C10req.bookingId) (assignBookingUpdate C10pay.pid)
        C10st.bookings ∧
    ((verifyPayment (fun s m => s ++ m) "k" C10req C10st).2.bookings.find?
        (fun b => b.bid == 2)).map Booking.status = some BookingStatus.assigned := by
  have h := C10_verifyPayment_uses_supplied_bookingId (fun s m => s ++ m) "k"
    C10req C10st C10pay (by decide) (by decide)
  exact ⟨by decide, h.2, by decide⟩

/-- C3, counterexample. In C3st a success Payment exists for booking 1, but
it is preceded by a failed Payment: findOne on bookingId alone returns the
failed one, so createOrder does not refuse: it answers 200, appends a new
Payment, and issues a gateway order. -/
theorem C3_counterexample :
    (∃ p ∈ C3st.payments, p.bookingId = 1 ∧ p.status = PaymentStatus.success) ∧
    (createOrder ⟨7, Role.customer⟩ 1 500 "o3" 3 C3st).res.status = 200 ∧
    (createOrder ⟨7, Role.customer⟩ 1 500 "o3" 3 C3st).st.payments.length =
      C3st.payments.length + 1 ∧
    (createOrder ⟨7, Role.customer⟩ 1 500 "o3" 3 C3st).gw ≠ [] := by
  decide

/-- C3, amended. When the FIRST Payment record found for the booking has
status success (and the booking exists, is owned by the requester, and is
confirmed), createOrder fails with the already-completed message, appends no
Payment, and issues no gateway order. -/
theorem C3_createOrder_first_payment (user : User) (bookingId : Nat)
    (amount : ℚ) (orderId : String) (newPid : Nat) (st : St)
    (b : Booking) (p : Payment)
    (hb : st.bookings.find? (fun x => x.bid == bookingId) = some b)
    (hown : b.customerId = user.uid)
    (hconf : b.status = BookingStatus.confirmed)
    (hp : st.payments.find? (fun q => q.bookingId == bookingId) = some p)
    (hps : p.status = PaymentStatus.success) :
    createOrder user bookingId amount orderId newPid st =
      { res := { status := 400, message := "Payment already completed for this booking" },
        st := st, gw := [] } := by
  simp [createOrder, hb, hown, hconf, hp, hps]

/-- Witness for the amended C3: the first and only payment of booking 1 is a
success, so a fresh createOrder is refused with no state change. -/
theorem C3_witness :
    createOrder ⟨7, Role.customer⟩ 1 500 "o9" 9 C3stB =
      { res := { status := 400, message := "Payment already completed for this booking" },
        st := C3stB, gw := [] } :=
  C3_createOrder_first_payment ⟨7, Role.customer⟩ 1 500 "o9" 9 C3stB
    (bookFix 1 7 BookingStatus.confirmed 0)
    (payFix 1 "o1" 1 7 100 PaymentStatus.success)
    (by decide) rfl rfl (by decide) rfl

/-- C4. The refund controller performs no check of the requested amount
against the payment amount: refunding 200 against a payment of 100 succeeds
with 200, issues a gateway refund of 200 * 100 paise, and marks the payment
refunded with refundAmount 200 and the booking refunded, while the
processRefund method of the Payment schema itself rejects the same input
with the exceeds-payment error. -/
theorem C4_refund_exceeds_payment_bug :
    (200 : ℚ) > C4pay.amount ∧
    (processRefund 1 200 "damaged" "rf1" 77 C4st).res.status = 200 ∧
    (processRefund 1 200 "damaged" "rf1" 77 C4st).gw =
      [GatewayCall.refund "gto1" (200 * 100)] ∧
    ((processRefund 1 200 "damaged" "rf1" 77 C4st).st.payments.find?
        (fun p => p.pid == 1)).map (fun p => (p.status, p.refund.refundAmount)) =
      some (PaymentStatus.refunded, some 200) ∧
    ((processRefund 1 200 "damaged" "rf1" 77 C4st).st.bookings.find?
        (fun b => b.bid == 1)).map Booking.status = some BookingStatus.refunded ∧
    C4pay.processRefundMethod 200 "damaged" 9 77 =
      Except.error "Refund amount cannot exceed payment amount" := by
  refine ⟨by decide, by decide, rfl, by decide, by decide, rfl⟩

/-- C5, counterexample. A Payment in status success is flipped to failed by
a later validly-signed payment.failed webhook event for the same
transaction: the failed event is not ignored. -/
theorem C5_counterexample :
    (C5st.payments.find? (fun p => p.transactionId == "o1")).map Payment.status =
      some PaymentStatus.success ∧
    ((handleRazorpayWebhook (fun s m => s ++ m) "w" "wbody5" C5event 0
        C5st).2.payments.find? (fun p => p.transactionId == "o1")).map
      Payment.status = some PaymentStatus.failed := by
  decide

/-- C5, amended. A validly-signed payment.failed webhook event sets the
status of the Payment matched by the event order id to failed regardless of
its current status; in particular a failed event arriving after success
overrides the success, so status transitions are not monotonic. -/
theorem C5_failed_overrides (hmac : String → String → String)
    (webhookSecret sig : String) (e : WebhookEvent) (now : ℤ) (st : St)
    (hsig : sig = hmac webhookSecret e.raw)
    (hev : e.event = "payment.failed") :
    (handleRazorpayWebhook hmac webhookSecret sig e now st).2.payments.find?
        (fun p => p.transactionId == e.paymentOrderId) =
      (st.payments.find? (fun p => p.transactionId == e.paymentOrderId)).map
        failedUpdate := by
  simp only [handleRazorpayWebhook, hsig, hev, ne_eq, not_true_eq_false,
    if_false, (by decide : ¬("payment.failed" = "payment.captured")), if_true]
  exact find?_updateFirst (fun p => p.transactionId == e.paymentOrderId)
    failedUpdate (fun x => rfl) st.payments

/-- Witness for the amended C5: the concrete success payment of
C5_counterexample is mapped through failedUpdate. -/
theorem C5_witness :
    (handleRazorpayWebhook (fun s m => s ++ m) "w" "wbody5" C5event 0
        C5st).2.payments.find?
        (fun p => p.transactionId == C5event.paymentOrderId) =
      (C5st.payments.find? (fun p => p.transactionId == C5event.paymentOrderId)).map
        failedUpdate :=
  C5_failed_overrides (fun s m => s ++ m) "w" "wbody5" C5event 0 C5st
    (by decide) rfl

/-- C6. Handling a validly-signed payment.captured event twice is idempotent
on the store: the second application changes nothing, and after the first
the matched Payment carries status success and the gateway transaction id of
the event. -/
theorem C6_webhook_captured_idempotent (hmac : String → String → String)
    (webhookSecret sig : String) (e : WebhookEvent) (now1 now2 : ℤ) (st : St)
    (hsig : sig = hmac webhookSecret e.raw)
    (hev : e.event = "payment.captured") :
    (handleRazorpayWebhook hmac webhookSecret sig e now2
        (handleRazorpayWebhook hmac webhookSecret sig e now1 st).2).2 =
      (handleRazorpayWebhook hmac webhookSecret sig e now1 st).2 ∧
    (handleRazorpayWebhook hmac webhookSecret sig e now1 st).2.payments.find?
        (fun p => p.transactionId == e.paymentOrderId) =
      (st.payments.find? (fun p => p.transactionId == e.paymentOrderId)).map
        (capturedUpdate e) := by
  constructor
  · simp only [handleRazorpayWebhook, hsig, hev, ne_eq, not_true_eq_false,
      if_false, if_true]
    rw [updateFirst_idem (fun p => p.transactionId == e.paymentOrderId)
      (capturedUpdate e) (fun x => rfl) (fun x => rfl)]
  · simp only [handleRazorpayWebhook, hsig, hev, ne_eq, not_true_eq_false,
      if_false, if_true]
    exact find?_updateFirst (fun p => p.transactionId == e.paymentOrderId)
      (capturedUpdate e) (fun x => rfl) st.payments

/-- Witness for C6 at a concrete initiated payment and captured event,
delivered twice with different arrival times. -/
theorem C6_witness :
    (handleRazorpayWebhook (fun s m => s ++ m) "w" "wbody6" C6event 4
        (handleRazorpayWebhook (fun s m => s ++ m) "w" "wbody6" C6event 3 C6st).2).2 =
      (handleRazorpayWebhook (fun s m => s ++ m) "w" "wbody6" C6event 3 C6st).2 ∧
    (handleRazorpayWebhook (fun s m => s ++ m) "w" "wbody6" C6event 3
        C6st).2.payments.find?
        (fun p => p.transactionId == C6event.paymentOrderId) =
      (C6st.payments.find? (fun p => p.transactionId == C6event.paymentOrderId)).map
        (capturedUpdate C6event) :=
  C6_webhook_captured_idempotent (fun s m => s ++ m) "w" "wbody6" C6event 3 4 C6st
    (by decide) rfl

/-- C8, counterexample. A customer with id 1 requests the payments of
booking 9, which belong to customer 2: the listing answers 200 and returns
them, with no ownership check. -/
theorem C8_counterexample :
    (⟨1, Role.customer⟩ : User).role = Role.customer ∧
    C8pay.customerId ≠ 1 ∧
    (getBookingPayments ⟨1, Role.customer⟩ 9 C8st).1.status = 200 ∧
    (getBookingPayments ⟨1, Role.customer⟩ 9 C8st).2 = [C8pay] := by
  decide

/-- C8, amended. getPayment enforces the access rule: a customer requesting
a payment of another customer is refused with 403 and no record, while an
admin or the owning customer obtains the record; the booking-payments
listing, however, performs no ownership or role check: for every requester
it returns exactly the payments of the requested booking, and its result
does not depend on the requester at all. -/
theorem C8_payment_read_access (user : User) (paymentId bookingId : Nat)
    (st : St) (p : Payment) :
    (st.payments.find? (fun q => q.pid == paymentId) = some p →
      ((user.role = Role.customer ∧ p.customerId ≠ user.uid →
        getPayment user paymentId st =
          ({ status := 403, message := "Not authorized to view this payment" }, none)) ∧
       (user.role = Role.admin ∨ p.customerId = user.uid →
        getPayment user paymentId st =
          ({ status := 200, message := "Payment details retrieved successfully" },
           some p)))) ∧
    (∀ q, q ∈ (getBookingPayments user bookingId st).2 ↔
      (q ∈ st.payments ∧ q.bookingId = bookingId)) ∧
    (∀ u2 : User, (getBookingPayments u2 bookingId st).2 =
      (getBookingPayments user bookingId st).2) := by
  refine ⟨?_, ?_, fun u2 => rfl⟩
  · intro hfind
    constructor
    · intro hc
      simp [getPayment, hfind, hc]
    · intro hc
      have hnc : ¬(user.role = Role.customer ∧ p.customerId ≠ user.uid) := by
        rcases hc with h | h
        · rintro ⟨h1, h2⟩
          rw [h1] at h
          cases h
        · rintro ⟨h1, h2⟩
          exact h2 h
      simp [getPayment, hfind, hnc]
  · intro q
    simp [getBookingPayments, List.mem_reverse, List.mem_filter]

/-- Witness for the amended C8: the owning customer reads their payment, and
the membership rule of the listing instantiated at the fixture payment. -/
theorem C8_witness :
    getPayment ⟨2, Role.customer⟩ 1 C8st =
      ({ status := 200, message := "Payment details retrieved successfully" },
       some C8pay) ∧
    (C8pay ∈ (getBookingPayments ⟨1, Role.customer⟩ 9 C8st).2 ↔
      (C8pay ∈ C8st.payments ∧ C8pay.bookingId = 9)) := by
  have h2 := C8_payment_read_access ⟨2, Role.customer⟩ 1 9 C8st C8pay
  have h1 := C8_payment_read_access ⟨1, Role.customer⟩ 1 9 C8st C8pay
  exact ⟨(h2.1 (by decide)).2 (Or.inr rfl), h1.2.1 C8pay⟩

/-! Booking numbers: recovery of the sequence value from the padded decimal
string, injectivity of the generated number in the sequence value, and the
behaviour of serialized and interleaved creations. -/

/-- A decimal digit character decodes back to its digit. -/
theorem digitChar_charVal : ∀ d : Nat, d < 10 → charVal (Nat.digitChar d) = d := by
  decide

/-- Reading one character folds it into the accumulator. -/
theorem valAux_cons (a : Nat) (c : Char) (l : List Char) :
    valAux a (c :: l) = valAux (10 * a + charVal c) l := rfl

/-- With enough fuel, the digit accumulator of Nat.toDigitsCore produces the
pure digit list followed by the seed. -/
theorem toDigitsCore_eq_digs :
    ∀ (fuel n : Nat) (ds : List Char), n < fuel →
      Nat.toDigitsCore 10 fuel n ds = digs n ++ ds := by
  intro fuel
  induction fuel with
  | zero => intro n ds h; exact absurd h (Nat.not_lt_zero n)
  | succ f ih =>
    intro n ds h
    by_cases h10 : n < 10
    · have hz : n / 10 = 0 := Nat.div_eq_of_lt h10
      rw [digs, dif_pos h10]
      simp [Nat.toDigitsCore, hz, Nat.mod_eq_of_lt h10]
    · have hz : n / 10 ≠ 0 := by omega
      have hlt : n / 10 < f := by
        have h1 : n / 10 < n := Nat.div_lt_self (by omega) (by omega)
        omega
      rw [digs, dif_neg h10]
      simp only [Nat.toDigitsCore, hz, if_false]
      rw [ih (n / 10) (Nat.digitChar (n % 10) :: ds) hlt]
      simp

/-- Reading back the digit list of n yields n. -/
theorem val_digs : ∀ n : Nat, valAux 0 (digs n) = n := by
  intro n
  induction n using Nat.strong_induction_on with
  | _ n ih =>
    by_cases h : n < 10
    · rw [digs, dif_pos h]
      rw [valAux_cons, digitChar_charVal n h]
      simp [valAux]
    · rw [digs, dif_neg h]
      have hlt : n / 10 < n := Nat.div_lt_self (by omega) (by omega)
      have hm : n % 10 < 10 := Nat.mod_lt n (by omega)
      have hstep : valAux 0 (digs (n / 10) ++ [Nat.digitChar (n % 10)]) =
          10 * valAux 0 (digs (n / 10)) + charVal (Nat.digitChar (n % 10)) := by
        rw [valAux, List.foldl_append]
        rfl
      rw [hstep, ih (n / 10) hlt, digitChar_charVal _ hm]
      omega

/-- The character data of the decimal representation is the digit list. -/
theorem repr_data_eq_digs (n : Nat) : (Nat.repr n).data = digs n := by
  show ((Nat.toDigitsCore 10 (n + 1) n []).asString).data = digs n
  rw [toDigitsCore_eq_digs (n + 1) n [] (Nat.lt_succ_self n), List.append_nil]
  rfl

/-- Reading back the decimal representation of n yields n. -/
theorem val_repr (n : Nat) : valAux 0 (Nat.repr n).data = n := by
  rw [repr_data_eq_digs]; exact val_digs n

/-- Leading zero characters do not change the value read from zero. -/
theorem valAux_zero_replicate :
    ∀ (m : Nat) (l : List Char), valAux 0 (List.replicate m '0' ++ l) = valAux 0 l := by
  intro m
  induction m with
  | zero => intro l; rfl
  | succ k ih =>
    intro l
    rw [List.replicate_succ, List.cons_append, valAux_cons]
    have h0 : 10 * 0 + charVal '0' = 0 := by decide
    rw [h0]
    exact ih l

/-- Reading back the zero-padded decimal representation of k yields k. -/
theorem val_padStart4_repr (k : Nat) : valAux 0 (padStart4 (Nat.repr k)).data = k := by
  rw [padStart4]
  by_cases h : (Nat.repr k).length < 4
  · rw [if_pos h]
    have hdata : (String.mk (List.replicate (4 - (Nat.repr k).length) '0') ++
        Nat.repr k).data =
        List.replicate (4 - (Nat.repr k).length) '0' ++ (Nat.repr k).data := by
      rw [String.data_append]
    rw [hdata, valAux_zero_replicate, val_repr]
  · rw [if_neg h, val_repr]

/-- The generated booking number determines the same-day count it was built
from: generation is injective in the count for a fixed date string. -/
theorem genNumber_inj (d : String) (a b : Nat)
    (h : genNumber d a = genNumber d b) : a = b := by
  have hd := congrArg String.data h
  simp only [genNumber, String.data_append, List.append_assoc] at hd
  have h2 := List.append_cancel_left (List.append_cancel_left hd)
  have h3 := congrArg (valAux 0) h2
  rw [val_padStart4_repr, val_padStart4_repr] at h3
  omega

/-- A serialized run of n creations stores n bookings. -/
theorem seqCreate_length (d : String) : ∀ n, (seqCreate d n).length = n := by
  intro n
  induction n with
  | zero => rfl
  | succ k ih => simp [seqCreate, ih]

/-- In a serialized run the i-th created booking reads count i; optional
lookup form. -/
theorem seqCreate_getq (d : String) :
    ∀ (n i : Nat), i < n → (seqCreate d n).get? i = some (genNumber d i) := by
  intro n
  induction n with
  | zero => intro i h; exact absurd h (Nat.not_lt_zero i)
  | succ k ih =>
    intro i h
    have hexp : seqCreate d (k + 1) =
        seqCreate d k ++ [genNumber d (seqCreate d k).length] := rfl
    rw [hexp]
    by_cases hik : i < k
    · rw [List.get?_append (by rw [seqCreate_length]; exact hik)]
      exact ih i hik
    · have hieq : i = k := by omega
      subst hieq
      rw [List.get?_append_right (by rw [seqCreate_length])]
      simp [seqCreate_length]

/-- In a serialized run the i-th created booking reads count i and is
numbered from sequence value i + 1. -/
theorem seqCreate_get (d : String) (n i : Nat) (h : i < (seqCreate d n).length) :
    (seqCreate d n).get ⟨i, h⟩ = genNumber d i := by
  have hq := seqCreate_getq d n i (by rw [seqCreate_length] at h; exact h)
  rw [List.get?_eq_get h] at hq
  exact Option.some.inj hq

/-- C9, amended. Booking numbers have the form DC + date + 4-digit
zero-padded sequence, with sequence value (same-day count) + 1. Creations
executed serially on one day give the i-th booking the sequence value i + 1,
strictly increasing with creation order, and the generated numbers are
pairwise distinct; the interleaved counterexample below shows this fails for
concurrent creations. -/
theorem C9_sequential_numbers (d : String) (n i j : Nat)
    (hi : i < (seqCreate d n).length) (hj : j < (seqCreate d n).length)
    (hij : i ≠ j) :
    (seqCreate d n).get ⟨i, hi⟩ = "DC" ++ d ++ padStart4 (Nat.repr (i + 1)) ∧
    (seqCreate d n).get ⟨i, hi⟩ ≠ (seqCreate d n).get ⟨j, hj⟩ := by
  constructor
  · exact seqCreate_get d n i hi
  · rw [seqCreate_get d n i hi, seqCreate_get d n j hj]
    intro heq
    exact hij (genNumber_inj d i j heq)

/-- Witness for the amended C9: two serialized creations on 2026-01-01 give
sequence suffixes 0001 and 0002 and distinct numbers. -/
theorem C9_witness :
    (seqCreate "20260101" 2).get ⟨0, by decide⟩ =
      "DC" ++ "20260101" ++ padStart4 (Nat.repr 1) ∧
    (seqCreate "20260101" 2).get ⟨0, by decide⟩ ≠
      (seqCreate "20260101" 2).get ⟨1, by decide⟩ := by
  have h := C9_sequential_numbers "20260101" 2 0 1 (by decide) (by decide)
    (by decide)
  exact h

/-- C9, counterexample. The pre-save hook counts then inserts in two steps;
in the interleaving where both requests read the day count 0 before either
writes, both bookings are committed with the same number DC202601010001. -/
theorem C9_counterexample :
    (crun "20260101" cinit
        [CStep.read1, CStep.read2, CStep.write1, CStep.write2]).op1.result =
      some "DC202601010001" ∧
    (crun "20260101" cinit
        [CStep.read1, CStep.read2, CStep.write1, CStep.write2]).op2.result =
      some "DC202601010001" ∧
    (crun "20260101" cinit
        [CStep.read1, CStep.read2, CStep.write1, CStep.write2]).store =
      ["DC202601010001", "DC202601010001"] := by
  decide

/-- The validation loop succeeds on all-valid items and computes the line
items and running subtotal described by the spec formulas. -/
theorem validateLoop_spec (catalog : Nat → Option CatalogService) :
    ∀ (services : List ReqServiceItem) (s0 : ℚ) (acc : List LineItem),
      (∀ it ∈ services, validItem catalog it = true) →
      validateLoop catalog services s0 acc =
        some (acc ++ services.map (snapLine catalog),
              s0 + (services.map (specItemTotal catalog)).sum) := by
  intro services
  induction services with
  | nil => intro s0 acc h; simp [validateLoop]
  | cons it rest ih =>
    intro s0 acc h
    have hit : validItem catalog it = true := h it (List.mem_cons_self it rest)
    have hrest : ∀ x ∈ rest, validItem catalog x = true := fun x hx =>
      h x (List.mem_cons_of_mem it hx)
    rcases hcat : catalog it.serviceId with _ | sv
    · rw [validItem, hcat] at hit
      cases hit
    · have hact : sv.isActive = true := by rw [validItem, hcat] at hit; exact hit
      rw [validateLoop]
      rw [hcat]
      simp only [hact, Bool.true_eq_false, if_false]
      rw [ih _ _ hrest]
      have hfold : it.addOns.foldl (fun sum a => sum + a.price) 0 =
          (it.addOns.map ReqAddOn.price).sum := by
        rw [foldl_add_price]
        simp
      rw [hfold]
      have hsnap : snapLine catalog it =
          { serviceId := it.serviceId, serviceName := sv.serviceName,
            quantity := it.quantity, basePrice := sv.basePrice,
            addOns := it.addOns,
            subtotal := (sv.basePrice + (it.addOns.map ReqAddOn.price).sum) *
              it.quantity } := by
        rw [snapLine, hcat]
      have hspec : specItemTotal catalog it =
          (sv.basePrice + (it.addOns.map ReqAddOn.price).sum) * it.quantity := by
        rw [specItemTotal, hcat]
      rw [List.map_cons, List.map_cons, List.sum_cons, hsnap, hspec]
      simp [add_assoc]

/-- C1. For all-valid service items, createBooking succeeds; each stored line
item carries the spec subtotal (basePrice + sum of add-on prices) * quantity,
the pricing subtotal is the sum of those item totals, the tax is the item
sum times 0.18 rounded half-up to 2 decimal places, and the total is exactly
subtotal + tax. -/
theorem C1_createBooking_pricing (catalog : Nat → Option CatalogService)
    (services : List ReqServiceItem)
    (h : ∀ it ∈ services, validItem catalog it = true) :
    createBooking catalog services =
      some (services.map (snapLine catalog),
        { subtotal := (services.map (specItemTotal catalog)).sum,
          tax := (jsRound ((services.map (specItemTotal catalog)).sum *
            (18 / 100) * 100) : ℚ) / 100,
          discount := 0,
          total := (services.map (specItemTotal catalog)).sum +
            (jsRound ((services.map (specItemTotal catalog)).sum *
              (18 / 100) * 100) : ℚ) / 100 }) := by
  rw [createBooking, validateLoop_spec catalog services 0 [] h]
  simp

/-- Evaluation of the C1 pricing formula at the fixture: one service priced
1000, quantity 1, no add-ons gives subtotal 1000, tax 180, total 1180. -/
theorem C1_eval :
    some (C1services.map (snapLine C1catalog),
      ({ subtotal := (C1services.map (specItemTotal C1catalog)).sum,
         tax := (jsRound ((C1services.map (specItemTotal C1catalog)).sum *
           (18 / 100) * 100) : ℚ) / 100,
         discount := 0,
         total := (C1services.map (specItemTotal C1catalog)).sum +
           (jsRound ((C1services.map (specItemTotal C1catalog)).sum *
             (18 / 100) * 100) : ℚ) / 100 } : Pricing)) =
    some ([{ serviceId := 1, serviceName := "Deep Clean", quantity := 1,
             basePrice := 1000, addOns := [], subtotal := 1000 }],
          ({ subtotal := 1000, tax := 180, discount := 0,
             total := 1180 } : Pricing)) := by
  norm_num [C1services, C1catalog, snapLine, specItemTotal, jsRound,
    Int.floor_eq_iff]

/-- Witness for C1 at the concrete input named by the claim: basePrice 1000,
quantity 1, no add-ons gives tax 180 and total 1180. -/
theorem C1_witness :
    (∀ it ∈ C1services, validItem C1catalog it = true) ∧
    createBooking C1catalog C1services =
      some ([{ serviceId := 1, serviceName := "Deep Clean", quantity := 1,
               basePrice := 1000, addOns := [], subtotal := 1000 }],
            { subtotal := 1000, tax := 180, discount := 0, total := 1180 }) :=
  ⟨by decide, (C1_createBooking_pricing C1catalog C1services (by decide)).trans C1_eval⟩

end DH
